import Mathlib

/-!
Verification of the simple-test-framework result aggregator (src/library.js).

The single source file defines three data objects: Checkpoint, Annotation
and Test.  A Test node holds an ordered contents log, counters
(passed / failed / total / pending / errors), an optional expected count,
a finished flag with an optional finish reason, a liveness timer and a
completion callback bound at construction.  Every method below is a direct
translation of the corresponding prototype method; JavaScript numbers
become Int, the nullable finish reason becomes Option String, and the
completion callback becomes a trace field recording each invocation
together with the arguments the code would pass.
-/

namespace SimpleTest

/-- DEFAULT_TIMEOUT from the source: 5000 milliseconds. -/
def DEFAULT_TIMEOUT : Int := 5000

/-- A value sitting in one of the overloadable JavaScript argument
positions (timeout / callback / body): undefined, a number, or a
function.  Only typeof tests are performed on these by the source. -/
inductive JSArg where
  | undef : JSArg
  | num (n : Int) : JSArg
  | func : JSArg
deriving DecidableEq

/-- typeof arg === "function" -/
def JSArg.isFunc : JSArg → Bool
  | .func => true
  | _ => false

/-- JavaScript truthiness of a finish reason: null / undefined (none) and
the empty string are falsy, every other string is truthy. -/
def truthy : Option String → Bool
  | none => false
  | some s => s ≠ ""

/-- String coercion of a finish reason as performed by JavaScript string
concatenation: undefined prints as "undefined". -/
def reasonToStr : Option String → String
  | none => "undefined"
  | some s => s

/-- One element of a Test node contents log: a Checkpoint, an Annotation
(kind is "error" or "comment"), or a subtest.  The subtest entry records
the child name; the child node itself is returned by Test.test. -/
inductive Entry where
  | checkpoint (name : String) (passed : Bool)
  | note (kind : String) (data : String)
  | subtest (name : String)
deriving DecidableEq

/-- The state of one Test node, mirroring the fields set by the Test
constructor.  hasCb records whether a completion callback is bound
(typeof cb === "function"); timer records whether the single-shot
liveness timer is currently scheduled; notified is the trace of
completion-callback invocations, each carrying the
(finishReason, isPassed) pair the code passes to the callback. -/
structure Test where
  name : String
  contents : List Entry
  passed : Int
  failed : Int
  expected : Option Int
  total : Int
  pending : Int
  finished : Bool
  finishReason : Option String
  errors : Int
  timeout : Int
  hasCb : Bool
  timer : Bool
  notified : List (Option String × Bool)
deriving DecidableEq

/-- Test.prototype.ping: always cancel the previously scheduled timer,
then schedule a new one exactly when the node is not finished and the
timeout is positive. -/
def Test.ping (s : Test) : Test :=
  { s with timer := !s.finished && decide (0 < s.timeout) }

/-- Test.prototype.isComplete. -/
def Test.isComplete (s : Test) : Bool :=
  s.finished && s.pending == 0 &&
    (s.expected == none || s.expected == some s.total)

/-- Test.prototype.isPassed. -/
def Test.isPassed (s : Test) : Bool :=
  s.isComplete && !(truthy s.finishReason) && s.failed == 0 && s.errors == 0

/-- Test.prototype._notifyFinish: invoke the bound callback, if any, with
(finishReason, isPassed()).  The invocation is recorded on the trace. -/
def Test.notifyFinish (s : Test) : Test :=
  if s.hasCb then
    { s with notified := s.notified ++ [(s.finishReason, s.isPassed)] }
  else s

/-- Test.prototype.error: ping, append an error annotation, bump errors. -/
def Test.error (s : Test) (data : String) : Test :=
  let s := s.ping
  { s with contents := s.contents ++ [.note "error" data],
           errors := s.errors + 1 }

/-- Test.prototype.comment: ping, append a comment annotation. -/
def Test.comment (s : Test) (data : String) : Test :=
  let s := s.ping
  { s with contents := s.contents ++ [.note "comment" data] }

/-- The switch statement inside Test.prototype.finish that records a
synthesized error annotation for a truthy (abnormal) finish reason. -/
def Test.abnormalNote (s : Test) : Test :=
  match s.finishReason with
  | some "bail" => s.error "Test bailed due to an uncaught exception."
  | some "timeout" =>
      s.error ("Test timed out due to no activity in "
        ++ toString s.timeout ++ " milliseconds.")
  | _ =>
      s.error ("Test finished abnormally, reason given was \x27"
        ++ reasonToStr s.finishReason ++ "\x27")

/-- Test.prototype.finish. -/
def Test.finish (s : Test) (reason : Option String) : Test :=
  if !s.finished then
    let s := { s with finished := true }
    -- this should clear the timeout, to prevent it from occurring again
    let s := s.ping
    let s := { s with finishReason := reason }
    let s := if truthy s.finishReason then s.abnormalNote else s
    if s.pending = 0 then s.notifyFinish else s
  else
    s.error ("An extra attempt was made to finish the test, the reason this time was: \x27"
      ++ reasonToStr reason ++ "\x27")

/-- Test.prototype._checkExpected: automatically finish normally when the
expected count is set and equal to total. -/
def Test.checkExpected (s : Test) : Test :=
  if s.expected ≠ none ∧ s.expected = some s.total then s.finish none else s

/-- The bound _subtestFinished handler created in the Test constructor:
given (reason, passed) from a resolving subtest, bump passed or failed,
decrement pending, and notify the completion callback when the last
pending subtest resolves after the node itself already finished. -/
def Test.subtestFinished (s : Test) (reason : Option String) (passed : Bool) : Test :=
  let s :=
    if ¬ truthy reason ∧ passed then { s with passed := s.passed + 1 }
    else { s with failed := s.failed + 1 }
  let s := { s with pending := s.pending - 1 }
  if s.pending = 0 ∧ s.finished then s.notifyFinish else s

/-- Test.prototype.addExpected. -/
def Test.addExpected (s : Test) (count : Int) : Test :=
  if !s.finished then
    let s := s.ping
    match s.expected with
    | none => { s with expected := some count }
    | some e => { s with expected := some (e + count) }
  else
    s.error ("Expected test count increased by " ++ toString count
      ++ " after completion.")

/-- The first argument of Test.prototype.check: either a non-callable
value (already coerced by the double negation in the source) or a
callable, modelled by its outcome when invoked: none for a normal
return, some e when it throws the value e. -/
inductive CheckArg where
  | val (b : Bool)
  | fn (thrown : Option String)
deriving DecidableEq

/-- Test.prototype.check.  Returns the updated node together with the
return value: some result when recorded, none (undefined) when the node
is already finished. -/
def Test.check (s : Test) (result : CheckArg) (name : String) : Test × Option Bool :=
  if !s.finished then
    let s := s.ping
    let rb : Bool × Option String :=
      match result with
      | .fn none => (true, none)
      | .fn (some e) => (false, some e)
      | .val b => (b, none)
    let s := { s with contents := s.contents ++ [Entry.checkpoint name rb.1] }
    let s :=
      if rb.1 then { s with passed := s.passed + 1 }
      else { s with failed := s.failed + 1 }
    let s := { s with total := s.total + 1 }
    -- if (error) this.error(error): the guard is a truthiness test on the
    -- thrown value, so a falsy thrown value (the empty string in this
    -- model's thrown-value domain) is not recorded as an annotation
    let s := match rb.2 with
      | some e => if truthy (some e) then s.error e else s
      | none => s
    let s := s.checkExpected
    (s, some rb.1)
  else
    (s.error ("Checkpoint \x27" ++ name ++ "\x27 triggered after test was completed"),
     none)

/-- The Test constructor (new Test(name, timeout, cb)).  If the timeout
argument is a function it is treated as the callback and the timeout is
treated as omitted; an undefined timeout falls back to DEFAULT_TIMEOUT.
The constructor pings once to start the liveness timer.  (After the
overloading swap the timeout argument can no longer be a function, so
the catch-all match arm is only ever taken for undefined.) -/
def Test.new (name : String) (timeoutArg cbArg : JSArg) : Test :=
  let cbArg := if timeoutArg.isFunc then JSArg.func else cbArg
  let timeoutArg := if timeoutArg.isFunc then JSArg.undef else timeoutArg
  let s : Test :=
    { name := name
      contents := []
      passed := 0
      failed := 0
      expected := none
      total := 0
      pending := 0
      finished := false
      finishReason := none
      errors := 0
      timeout := match timeoutArg with | .num n => n | _ => DEFAULT_TIMEOUT
      hasCb := cbArg.isFunc
      timer := false
      notified := [] }
  s.ping

/-- What Test.prototype.test produces besides the parent update: nothing
when the parent was already finished, a child whose body was scheduled
via run when a body function was supplied, or the child returned to the
caller when no body was supplied. -/
inductive TestResult where
  | rejected
  | ranBody (child : Test)
  | returned (child : Test)
deriving DecidableEq

/-- The child node carried by a TestResult, if any. -/
def TestResult.child : TestResult → Option Test
  | .rejected => none
  | .ranBody c => some c
  | .returned c => some c

/-- True when the result scheduled a supplied body. -/
def TestResult.isRanBody : TestResult → Bool
  | .ranBody _ => true
  | _ => false

/-- Test.prototype.test.  If the timeout argument is a function it is
treated as the body.  On an unfinished parent: ping, construct the child
with the parent bound handler as its callback (hence a function), append
a subtest entry, bump pending and total, and re-check the expected
count.  On a finished parent only an error annotation is recorded. -/
def Test.test (s : Test) (name : String) (timeoutArg bodyArg : JSArg) :
    Test × TestResult :=
  let bodyArg := if timeoutArg.isFunc then JSArg.func else bodyArg
  let timeoutArg := if timeoutArg.isFunc then JSArg.undef else timeoutArg
  if !s.finished then
    let s := s.ping
    let child := Test.new name timeoutArg JSArg.func
    let s := { s with contents := s.contents ++ [Entry.subtest name] }
    let s := { s with pending := s.pending + 1 }
    let s := { s with total := s.total + 1 }
    let s := s.checkExpected
    if bodyArg.isFunc then (s, .ranBody child) else (s, .returned child)
  else
    (s.error ("Subtest \x27" ++ name ++ "\x27 triggered after test was completed"),
     .rejected)

/-- The scheduled liveness timer firing: setTimeout runs finish("timeout")
only when the timer is still scheduled (a cleared timer never fires). -/
def Test.timerFire (s : Test) : Test :=
  if s.timer then s.finish (some "timeout") else s

/-- One event applied to a single node: a method call from a client, the
liveness timer firing, or a subtest resolving through the bound
_subtestFinished handler. -/
inductive Op where
  | check (arg : CheckArg) (name : String)
  | test (name : String) (timeoutArg bodyArg : JSArg)
  | addExpected (count : Int)
  | comment (data : String)
  | error (data : String)
  | ping
  | finish (reason : Option String)
  | timerFire
  | subtestResolve (reason : Option String) (passed : Bool)
deriving DecidableEq

/-- Apply one event to a node. -/
def step (s : Test) : Op → Test
  | .check a n => (s.check a n).1
  | .test n t b => (s.test n t b).1
  | .addExpected c => s.addExpected c
  | .comment d => s.comment d
  | .error d => s.error d
  | .ping => s.ping
  | .finish r => s.finish r
  | .timerFire => s.timerFire
  | .subtestResolve r p => s.subtestFinished r p

/-- Apply a sequence of events to a node. -/
def run (s : Test) (ops : List Op) : Test := ops.foldl step s

/-- The state invariant maintained by every operation: the completion
callback has been invoked at most once; an invocation can only have
happened on a finished node whose pending count is not positive; a
finished node has no scheduled liveness timer; a node with a non-positive
timeout has no scheduled liveness timer. -/
def Inv (s : Test) : Prop :=
  s.notified.length ≤ 1
  ∧ (s.notified ≠ [] → s.finished = true ∧ s.pending ≤ 0)
  ∧ (s.finished = true → s.timer = false)
  ∧ (s.timeout ≤ 0 → s.timer = false)

instance (s : Test) : Decidable (Inv s) := by
  unfold Inv; infer_instance

/-! Effect lemmas for the individual operations. -/

@[simp] lemma ping_contents (s : Test) : s.ping.contents = s.contents := rfl

@[simp] lemma ping_passed (s : Test) : s.ping.passed = s.passed := rfl

@[simp] lemma ping_failed (s : Test) : s.ping.failed = s.failed := rfl

@[simp] lemma ping_expected (s : Test) : s.ping.expected = s.expected := rfl

@[simp] lemma ping_total (s : Test) : s.ping.total = s.total := rfl

@[simp] lemma ping_pending (s : Test) : s.ping.pending = s.pending := rfl

@[simp] lemma ping_finished (s : Test) : s.ping.finished = s.finished := rfl

@[simp] lemma ping_finishReason (s : Test) : s.ping.finishReason = s.finishReason := rfl

@[simp] lemma ping_errors (s : Test) : s.ping.errors = s.errors := rfl

@[simp] lemma ping_timeout (s : Test) : s.ping.timeout = s.timeout := rfl

@[simp] lemma ping_hasCb (s : Test) : s.ping.hasCb = s.hasCb := rfl

@[simp] lemma ping_notified (s : Test) : s.ping.notified = s.notified := rfl

@[simp] lemma ping_timer (s : Test) :
    s.ping.timer = (!s.finished && decide (0 < s.timeout)) := rfl

@[simp] lemma notifyFinish_finished (s : Test) :
    s.notifyFinish.finished = s.finished := by
  unfold Test.notifyFinish; split <;> rfl

@[simp] lemma notifyFinish_pending (s : Test) :
    s.notifyFinish.pending = s.pending := by
  unfold Test.notifyFinish; split <;> rfl

@[simp] lemma notifyFinish_contents (s : Test) :
    s.notifyFinish.contents = s.contents := by
  unfold Test.notifyFinish; split <;> rfl

@[simp] lemma notifyFinish_passed (s : Test) :
    s.notifyFinish.passed = s.passed := by
  unfold Test.notifyFinish; split <;> rfl

@[simp] lemma notifyFinish_failed (s : Test) :
    s.notifyFinish.failed = s.failed := by
  unfold Test.notifyFinish; split <;> rfl

@[simp] lemma notifyFinish_expected (s : Test) :
    s.notifyFinish.expected = s.expected := by
  unfold Test.notifyFinish; split <;> rfl

@[simp] lemma notifyFinish_total (s : Test) :
    s.notifyFinish.total = s.total := by
  unfold Test.notifyFinish; split <;> rfl

@[simp] lemma notifyFinish_finishReason (s : Test) :
    s.notifyFinish.finishReason = s.finishReason := by
  unfold Test.notifyFinish; split <;> rfl

@[simp] lemma notifyFinish_errors (s : Test) :
    s.notifyFinish.errors = s.errors := by
  unfold Test.notifyFinish; split <;> rfl

@[simp] lemma notifyFinish_timeout (s : Test) :
    s.notifyFinish.timeout = s.timeout := by
  unfold Test.notifyFinish; split <;> rfl

@[simp] lemma notifyFinish_hasCb (s : Test) :
    s.notifyFinish.hasCb = s.hasCb := by
  unfold Test.notifyFinish; split <;> rfl

@[simp] lemma notifyFinish_timer (s : Test) :
    s.notifyFinish.timer = s.timer := by
  unfold Test.notifyFinish; split <;> rfl

lemma notifyFinish_notified (s : Test) :
    s.notifyFinish.notified =
      if s.hasCb then s.notified ++ [(s.finishReason, s.isPassed)]
      else s.notified := by
  unfold Test.notifyFinish; split <;> simp_all

@[simp] lemma error_contents (s : Test) (d : String) :
    (s.error d).contents = s.contents ++ [Entry.note "error" d] := rfl

@[simp] lemma error_errors (s : Test) (d : String) :
    (s.error d).errors = s.errors + 1 := rfl

@[simp] lemma error_passed (s : Test) (d : String) :
    (s.error d).passed = s.passed := rfl

@[simp] lemma error_failed (s : Test) (d : String) :
    (s.error d).failed = s.failed := rfl

@[simp] lemma error_expected (s : Test) (d : String) :
    (s.error d).expected = s.expected := rfl

@[simp] lemma error_total (s : Test) (d : String) :
    (s.error d).total = s.total := rfl

@[simp] lemma error_pending (s : Test) (d : String) :
    (s.error d).pending = s.pending := rfl

@[simp] lemma error_finished (s : Test) (d : String) :
    (s.error d).finished = s.finished := rfl

@[simp] lemma error_finishReason (s : Test) (d : String) :
    (s.error d).finishReason = s.finishReason := rfl

@[simp] lemma error_timeout (s : Test) (d : String) :
    (s.error d).timeout = s.timeout := rfl

@[simp] lemma error_hasCb (s : Test) (d : String) :
    (s.error d).hasCb = s.hasCb := rfl

@[simp] lemma error_notified (s : Test) (d : String) :
    (s.error d).notified = s.notified := rfl

@[simp] lemma error_timer (s : Test) (d : String) :
    (s.error d).timer = (!s.finished && decide (0 < s.timeout)) := rfl

@[simp] lemma comment_finished (s : Test) (d : String) :
    (s.comment d).finished = s.finished := rfl

@[simp] lemma comment_pending (s : Test) (d : String) :
    (s.comment d).pending = s.pending := rfl

@[simp] lemma comment_notified (s : Test) (d : String) :
    (s.comment d).notified = s.notified := rfl

@[simp] lemma comment_timeout (s : Test) (d : String) :
    (s.comment d).timeout = s.timeout := rfl

@[simp] lemma comment_timer (s : Test) (d : String) :
    (s.comment d).timer = (!s.finished && decide (0 < s.timeout)) := rfl

/-- abnormalNote is some error annotation: every match arm is an
application of Test.error. -/
lemma abnormalNote_eq_error (s : Test) : ∃ d, s.abnormalNote = s.error d := by
  unfold Test.abnormalNote
  split <;> exact ⟨_, rfl⟩

@[simp] lemma abnormalNote_finished (s : Test) :
    s.abnormalNote.finished = s.finished := by
  obtain ⟨d, hd⟩ := abnormalNote_eq_error s; rw [hd]; simp

@[simp] lemma abnormalNote_pending (s : Test) :
    s.abnormalNote.pending = s.pending := by
  obtain ⟨d, hd⟩ := abnormalNote_eq_error s; rw [hd]; simp

@[simp] lemma abnormalNote_passed (s : Test) :
    s.abnormalNote.passed = s.passed := by
  obtain ⟨d, hd⟩ := abnormalNote_eq_error s; rw [hd]; simp

@[simp] lemma abnormalNote_failed (s : Test) :
    s.abnormalNote.failed = s.failed := by
  obtain ⟨d, hd⟩ := abnormalNote_eq_error s; rw [hd]; simp

@[simp] lemma abnormalNote_expected (s : Test) :
    s.abnormalNote.expected = s.expected := by
  obtain ⟨d, hd⟩ := abnormalNote_eq_error s; rw [hd]; simp

@[simp] lemma abnormalNote_total (s : Test) :
    s.abnormalNote.total = s.total := by
  obtain ⟨d, hd⟩ := abnormalNote_eq_error s; rw [hd]; simp

@[simp] lemma abnormalNote_finishReason (s : Test) :
    s.abnormalNote.finishReason = s.finishReason := by
  obtain ⟨d, hd⟩ := abnormalNote_eq_error s; rw [hd]; simp

@[simp] lemma abnormalNote_timeout (s : Test) :
    s.abnormalNote.timeout = s.timeout := by
  obtain ⟨d, hd⟩ := abnormalNote_eq_error s; rw [hd]; simp

@[simp] lemma abnormalNote_hasCb (s : Test) :
    s.abnormalNote.hasCb = s.hasCb := by
  obtain ⟨d, hd⟩ := abnormalNote_eq_error s; rw [hd]; simp

@[simp] lemma abnormalNote_notified (s : Test) :
    s.abnormalNote.notified = s.notified := by
  obtain ⟨d, hd⟩ := abnormalNote_eq_error s; rw [hd]; simp

@[simp] lemma abnormalNote_timer (s : Test) :
    s.abnormalNote.timer = (!s.finished && decide (0 < s.timeout)) := by
  obtain ⟨d, hd⟩ := abnormalNote_eq_error s; rw [hd, error_timer]

/-- A second finish call only records the duplicate-attempt error. -/
lemma finish_of_finished (s : Test) (r : Option String) (hf : s.finished = true) :
    s.finish r = s.error
      ("An extra attempt was made to finish the test, the reason this time was: \x27"
        ++ reasonToStr r ++ "\x27") := by
  unfold Test.finish; simp [hf]

@[simp] lemma finish_finished (s : Test) (r : Option String) :
    (s.finish r).finished = true := by
  unfold Test.finish
  cases hf : s.finished <;> simp [hf]
  split <;> split <;> simp

@[simp] lemma finish_pending (s : Test) (r : Option String) :
    (s.finish r).pending = s.pending := by
  unfold Test.finish
  cases hf : s.finished <;> simp [hf]
  split <;> split <;> simp

@[simp] lemma finish_passed (s : Test) (r : Option String) :
    (s.finish r).passed = s.passed := by
  unfold Test.finish
  cases hf : s.finished <;> simp [hf]
  split <;> split <;> simp

@[simp] lemma finish_failed (s : Test) (r : Option String) :
    (s.finish r).failed = s.failed := by
  unfold Test.finish
  cases hf : s.finished <;> simp [hf]
  split <;> split <;> simp

@[simp] lemma finish_total (s : Test) (r : Option String) :
    (s.finish r).total = s.total := by
  unfold Test.finish
  cases hf : s.finished <;> simp [hf]
  split <;> split <;> simp

@[simp] lemma finish_expected (s : Test) (r : Option String) :
    (s.finish r).expected = s.expected := by
  unfold Test.finish
  cases hf : s.finished <;> simp [hf]
  split <;> split <;> simp

@[simp] lemma finish_timeout (s : Test) (r : Option String) :
    (s.finish r).timeout = s.timeout := by
  unfold Test.finish
  cases hf : s.finished <;> simp [hf]
  split <;> split <;> simp

@[simp] lemma finish_hasCb (s : Test) (r : Option String) :
    (s.finish r).hasCb = s.hasCb := by
  unfold Test.finish
  cases hf : s.finished <;> simp [hf]
  split <;> split <;> simp

/-- Finishing always leaves the liveness timer cancelled: the first finish
pings after setting finished, and the duplicate branch pings through the
error recording while finished is already true. -/
@[simp] lemma finish_timer (s : Test) (r : Option String) :
    (s.finish r).timer = false := by
  by_cases hf : s.finished = true
  · simp [Test.finish, hf]
  · by_cases ht : truthy r = true <;> by_cases hp : s.pending = 0 <;>
      simp [Test.finish, hf, ht, hp]

/-- The first finish call records the given reason verbatim. -/
lemma finish_finishReason (s : Test) (r : Option String) (hf : s.finished = false) :
    (s.finish r).finishReason = r := by
  by_cases ht : truthy r = true <;> by_cases hp : s.pending = 0 <;>
    simp [Test.finish, hf, ht, hp]

/-- The duplicate branch leaves the recorded reason untouched. -/
lemma finish_finishReason_of_finished (s : Test) (r : Option String)
    (hf : s.finished = true) : (s.finish r).finishReason = s.finishReason := by
  rw [finish_of_finished s r hf]; simp

/-- The duplicate branch never notifies the callback. -/
lemma finish_notified_of_finished (s : Test) (r : Option String)
    (hf : s.finished = true) : (s.finish r).notified = s.notified := by
  rw [finish_of_finished s r hf]; simp

/-- Finishing with pending subtests defers the notification. -/
lemma finish_notified_of_pending (s : Test) (r : Option String)
    (hp : s.pending ≠ 0) : (s.finish r).notified = s.notified := by
  by_cases hf : s.finished = true
  · rw [finish_of_finished s r hf]; simp
  · by_cases ht : truthy r = true <;>
      simp [Test.finish, hf, ht, hp]

/-- The notification trace after finish either is unchanged, or one event
was appended because an unfinished node with no pending subtests and a
bound callback finished. -/
lemma finish_notified_cases (s : Test) (r : Option String) :
    (s.finish r).notified = s.notified ∨
      (s.finished = false ∧ s.pending = 0 ∧ s.hasCb = true ∧
        (s.finish r).notified.length = s.notified.length + 1) := by
  by_cases hf : s.finished = true
  · left; rw [finish_of_finished s r hf]; simp
  · by_cases hp : s.pending = 0
    · by_cases hc : s.hasCb = true
      · right
        refine ⟨by simpa using hf, hp, hc, ?_⟩
        by_cases ht : truthy r = true <;>
          simp [Test.finish, hf, ht, hp, hc, notifyFinish_notified]
      · left
        by_cases ht : truthy r = true <;>
          simp [Test.finish, hf, ht, hp, hc, notifyFinish_notified]
    · left
      by_cases ht : truthy r = true <;>
        simp [Test.finish, hf, ht, hp, notifyFinish_notified]

/-- checkExpected finishes normally when expected equals total. -/
lemma checkExpected_of_eq (s : Test) (h : s.expected = some s.total) :
    s.checkExpected = s.finish none := by
  unfold Test.checkExpected
  rw [if_pos ⟨by simp [h], h⟩]

/-- checkExpected does nothing when expected differs from total. -/
lemma checkExpected_of_ne (s : Test) (h : s.expected ≠ some s.total) :
    s.checkExpected = s := by
  unfold Test.checkExpected
  rw [if_neg]
  rintro ⟨-, h2⟩
  exact h h2

@[simp] lemma subtestFinished_pending (s : Test) (r : Option String) (p : Bool) :
    (s.subtestFinished r p).pending = s.pending - 1 := by
  by_cases h1 : truthy r = false ∧ p = true <;>
    by_cases h2 : s.pending - 1 = 0 ∧ s.finished = true <;>
      simp [Test.subtestFinished, h1, h2]

@[simp] lemma subtestFinished_total (s : Test) (r : Option String) (p : Bool) :
    (s.subtestFinished r p).total = s.total := by
  by_cases h1 : truthy r = false ∧ p = true <;>
    by_cases h2 : s.pending - 1 = 0 ∧ s.finished = true <;>
      simp [Test.subtestFinished, h1, h2]

@[simp] lemma subtestFinished_finished (s : Test) (r : Option String) (p : Bool) :
    (s.subtestFinished r p).finished = s.finished := by
  by_cases h1 : truthy r = false ∧ p = true <;>
    by_cases h2 : s.pending - 1 = 0 ∧ s.finished = true <;>
      simp [Test.subtestFinished, h1, h2]

@[simp] lemma subtestFinished_contents (s : Test) (r : Option String) (p : Bool) :
    (s.subtestFinished r p).contents = s.contents := by
  by_cases h1 : truthy r = false ∧ p = true <;>
    by_cases h2 : s.pending - 1 = 0 ∧ s.finished = true <;>
      simp [Test.subtestFinished, h1, h2]

@[simp] lemma subtestFinished_errors (s : Test) (r : Option String) (p : Bool) :
    (s.subtestFinished r p).errors = s.errors := by
  by_cases h1 : truthy r = false ∧ p = true <;>
    by_cases h2 : s.pending - 1 = 0 ∧ s.finished = true <;>
      simp [Test.subtestFinished, h1, h2]

@[simp] lemma subtestFinished_expected (s : Test) (r : Option String) (p : Bool) :
    (s.subtestFinished r p).expected = s.expected := by
  by_cases h1 : truthy r = false ∧ p = true <;>
    by_cases h2 : s.pending - 1 = 0 ∧ s.finished = true <;>
      simp [Test.subtestFinished, h1, h2]

@[simp] lemma subtestFinished_timer (s : Test) (r : Option String) (p : Bool) :
    (s.subtestFinished r p).timer = s.timer := by
  by_cases h1 : truthy r = false ∧ p = true <;>
    by_cases h2 : s.pending - 1 = 0 ∧ s.finished = true <;>
      simp [Test.subtestFinished, h1, h2]

@[simp] lemma subtestFinished_timeout (s : Test) (r : Option String) (p : Bool) :
    (s.subtestFinished r p).timeout = s.timeout := by
  by_cases h1 : truthy r = false ∧ p = true <;>
    by_cases h2 : s.pending - 1 = 0 ∧ s.finished = true <;>
      simp [Test.subtestFinished, h1, h2]

@[simp] lemma subtestFinished_hasCb (s : Test) (r : Option String) (p : Bool) :
    (s.subtestFinished r p).hasCb = s.hasCb := by
  by_cases h1 : truthy r = false ∧ p = true <;>
    by_cases h2 : s.pending - 1 = 0 ∧ s.finished = true <;>
      simp [Test.subtestFinished, h1, h2]

/-- A resolving subtest with a falsy reason and a true passed flag counts
as passed on the parent. -/
lemma subtestFinished_passed_of (s : Test) (r : Option String) (p : Bool)
    (h : truthy r = false ∧ p = true) :
    (s.subtestFinished r p).passed = s.passed + 1 ∧
      (s.subtestFinished r p).failed = s.failed := by
  by_cases h2 : s.pending - 1 = 0 ∧ s.finished = true <;>
    simp [Test.subtestFinished, h, h2]

/-- Any other resolution counts as failed on the parent. -/
lemma subtestFinished_failed_of (s : Test) (r : Option String) (p : Bool)
    (h : ¬(truthy r = false ∧ p = true)) :
    (s.subtestFinished r p).failed = s.failed + 1 ∧
      (s.subtestFinished r p).passed = s.passed := by
  by_cases h2 : s.pending - 1 = 0 ∧ s.finished = true <;>
    simp [Test.subtestFinished, h, h2]

/-- The notification trace after a subtest resolution either is unchanged,
or one event was appended because the last pending subtest of an already
finished parent with a bound callback resolved. -/
lemma subtestFinished_notified_cases (s : Test) (r : Option String) (p : Bool) :
    (s.subtestFinished r p).notified = s.notified ∨
      (s.finished = true ∧ s.pending - 1 = 0 ∧ s.hasCb = true ∧
        (s.subtestFinished r p).notified.length = s.notified.length + 1) := by
  by_cases h2 : s.pending - 1 = 0 ∧ s.finished = true
  · by_cases hc : s.hasCb = true
    · right
      refine ⟨h2.2, h2.1, hc, ?_⟩
      by_cases h1 : truthy r = false ∧ p = true <;>
        simp [Test.subtestFinished, h1, h2, hc, notifyFinish_notified]
    · left
      by_cases h1 : truthy r = false ∧ p = true <;>
        simp [Test.subtestFinished, h1, h2, hc, notifyFinish_notified]
  · left
    by_cases h1 : truthy r = false ∧ p = true <;>
      simp [Test.subtestFinished, h1, h2, notifyFinish_notified]

/-- A normal finish (falsy reason) on an unfinished node records no
annotation: the contents log and the error counter are untouched. -/
lemma finish_falsy_contents (s : Test) (r : Option String)
    (hf : s.finished = false) (ht : truthy r = false) :
    (s.finish r).contents = s.contents ∧ (s.finish r).errors = s.errors := by
  by_cases hp : s.pending = 0 <;> simp [Test.finish, hf, ht, hp]

/-- An abnormal finish with reason "timeout" on an unfinished node records
exactly the synthesized timeout message, which mentions the configured
timeout value. -/
lemma finish_timeout_contents (s : Test) (hf : s.finished = false) :
    (s.finish (some "timeout")).contents =
        s.contents ++ [Entry.note "error"
          ("Test timed out due to no activity in "
            ++ toString s.timeout ++ " milliseconds.")] ∧
      (s.finish (some "timeout")).errors = s.errors + 1 := by
  by_cases hp : s.pending = 0 <;>
    simp [Test.finish, hf, hp, truthy, Test.abnormalNote]

@[simp] lemma checkExpected_pending (s : Test) :
    s.checkExpected.pending = s.pending := by
  unfold Test.checkExpected; split <;> simp

@[simp] lemma checkExpected_total (s : Test) :
    s.checkExpected.total = s.total := by
  unfold Test.checkExpected; split <;> simp

@[simp] lemma checkExpected_passed (s : Test) :
    s.checkExpected.passed = s.passed := by
  unfold Test.checkExpected; split <;> simp

@[simp] lemma checkExpected_failed (s : Test) :
    s.checkExpected.failed = s.failed := by
  unfold Test.checkExpected; split <;> simp

@[simp] lemma checkExpected_expected (s : Test) :
    s.checkExpected.expected = s.expected := by
  unfold Test.checkExpected; split <;> simp

@[simp] lemma checkExpected_timeout (s : Test) :
    s.checkExpected.timeout = s.timeout := by
  unfold Test.checkExpected; split <;> simp

@[simp] lemma checkExpected_hasCb (s : Test) :
    s.checkExpected.hasCb = s.hasCb := by
  unfold Test.checkExpected; split <;> simp

/-- checkExpected leaves the log and error counter alone on an unfinished
node: either it does nothing, or it performs a normal (reason-free)
finish, which records nothing. -/
lemma checkExpected_contents (s : Test) (hf : s.finished = false) :
    s.checkExpected.contents = s.contents ∧
      s.checkExpected.errors = s.errors := by
  unfold Test.checkExpected
  split
  · exact finish_falsy_contents s none hf rfl
  · exact ⟨rfl, rfl⟩

/-- When expected equals the new total, checkExpected performs a normal
finish: the node ends finished with no recorded reason. -/
lemma checkExpected_fires (s : Test) (hx : s.expected = some s.total)
    (hf : s.finished = false) :
    s.checkExpected.finished = true ∧ s.checkExpected.finishReason = none := by
  rw [checkExpected_of_eq s hx]
  exact ⟨finish_finished s none, finish_finishReason s none hf⟩

/-- The finished flag after checkExpected. -/
lemma checkExpected_finished (s : Test) :
    s.checkExpected.finished = (decide (s.expected = some s.total) || s.finished) := by
  by_cases hx : s.expected = some s.total
  · rw [checkExpected_of_eq s hx]; simp [hx]
  · rw [checkExpected_of_ne s hx]; simp [hx]

/-- The notification trace after checkExpected either is unchanged, or one
event was appended by the automatic normal finish. -/
lemma checkExpected_notified_cases (s : Test) :
    s.checkExpected.notified = s.notified ∨
      (s.finished = false ∧ s.pending = 0 ∧ s.hasCb = true ∧
        s.checkExpected.notified.length = s.notified.length + 1) := by
  unfold Test.checkExpected
  split
  · exact finish_notified_cases s none
  · left; rfl

/-- Growth of the notification trace across checkExpected happens only
into a state that is finished with no pending subtests. -/
lemma checkExpected_grow (s : Test)
    (hg : s.notified.length < s.checkExpected.notified.length) :
    s.checkExpected.finished = true ∧ s.checkExpected.pending = 0 := by
  unfold Test.checkExpected at *
  split at hg
  · rcases finish_notified_cases s none with hn | ⟨-, hp0, -, -⟩
    · rw [hn] at hg; omega
    · rw [if_pos (by assumption)]
      exact ⟨finish_finished s none, by rw [finish_pending]; exact hp0⟩
  · omega

@[simp] lemma addExpected_finished (s : Test) (c : Int) :
    (s.addExpected c).finished = s.finished := by
  by_cases hf : s.finished = true <;> cases he : s.expected <;>
    simp [Test.addExpected, hf, he]

@[simp] lemma addExpected_pending (s : Test) (c : Int) :
    (s.addExpected c).pending = s.pending := by
  by_cases hf : s.finished = true <;> cases he : s.expected <;>
    simp [Test.addExpected, hf, he]

@[simp] lemma addExpected_total (s : Test) (c : Int) :
    (s.addExpected c).total = s.total := by
  by_cases hf : s.finished = true <;> cases he : s.expected <;>
    simp [Test.addExpected, hf, he]

@[simp] lemma addExpected_passed (s : Test) (c : Int) :
    (s.addExpected c).passed = s.passed := by
  by_cases hf : s.finished = true <;> cases he : s.expected <;>
    simp [Test.addExpected, hf, he]

@[simp] lemma addExpected_failed (s : Test) (c : Int) :
    (s.addExpected c).failed = s.failed := by
  by_cases hf : s.finished = true <;> cases he : s.expected <;>
    simp [Test.addExpected, hf, he]

@[simp] lemma addExpected_notified (s : Test) (c : Int) :
    (s.addExpected c).notified = s.notified := by
  by_cases hf : s.finished = true <;> cases he : s.expected <;>
    simp [Test.addExpected, hf, he]

@[simp] lemma addExpected_timeout (s : Test) (c : Int) :
    (s.addExpected c).timeout = s.timeout := by
  by_cases hf : s.finished = true <;> cases he : s.expected <;>
    simp [Test.addExpected, hf, he]

@[simp] lemma addExpected_finishReason (s : Test) (c : Int) :
    (s.addExpected c).finishReason = s.finishReason := by
  by_cases hf : s.finished = true <;> cases he : s.expected <;>
    simp [Test.addExpected, hf, he]

@[simp] lemma addExpected_timer (s : Test) (c : Int) :
    (s.addExpected c).timer = (!s.finished && decide (0 < s.timeout)) := by
  by_cases hf : s.finished = true <;> cases he : s.expected <;>
    simp [Test.addExpected, hf, he]

/-- addExpected on an unfinished node sets expected to the delta when it
was null, and adds the delta otherwise; it performs no expected-vs-total
re-evaluation. -/
lemma addExpected_expected (s : Test) (c : Int) (hf : s.finished = false) :
    (s.addExpected c).expected =
      (match s.expected with
        | none => some c
        | some e => some (e + c)) := by
  cases he : s.expected <;> simp [Test.addExpected, hf, he]

/-- addExpected on a finished node only records the misuse error. -/
lemma addExpected_of_finished (s : Test) (c : Int) (hf : s.finished = true) :
    s.addExpected c =
      s.error ("Expected test count increased by " ++ toString c
        ++ " after completion.") := by
  simp [Test.addExpected, hf]

/-- check on a finished node only records the misuse error and returns
undefined. -/
lemma check_of_finished (s : Test) (a : CheckArg) (n : String)
    (hf : s.finished = true) :
    s.check a n =
      (s.error ("Checkpoint \x27" ++ n ++ "\x27 triggered after test was completed"),
        none) := by
  simp [Test.check, hf]

/-- test on a finished parent only records the misuse error and creates
nothing. -/
lemma test_of_finished (s : Test) (nm : String) (ta ba : JSArg)
    (hf : s.finished = true) :
    s.test nm ta ba =
      (s.error ("Subtest \x27" ++ nm ++ "\x27 triggered after test was completed"),
        .rejected) := by
  simp [Test.test, hf]

lemma inv_new (n : String) (ta ca : JSArg) : Inv (Test.new n ta ca) := by
  refine ⟨?_, ?_, ?_, ?_⟩
  · show (List.length [] ≤ 1); simp
  · intro hne; exact absurd rfl hne
  · intro hfin; cases hfin
  · intro hto
    show (!false && decide (0 < (Test.new n ta ca).timeout)) = false
    have : ¬ (0 < (Test.new n ta ca).timeout) := by omega
    simp [this]

lemma inv_error (s : Test) (d : String) (h : Inv s) : Inv (s.error d) := by
  obtain ⟨h1, h2, h3, h4⟩ := h
  refine ⟨by simpa using h1, ?_, ?_, ?_⟩
  · intro hne
    simp only [error_notified] at hne
    obtain ⟨ha, hb⟩ := h2 hne
    exact ⟨by simp [ha], by simp [hb]⟩
  · intro hfin
    simp only [error_finished] at hfin
    simp [hfin]
  · intro hto
    simp only [error_timeout] at hto
    have : ¬ (0 < s.timeout) := by omega
    simp [this]

lemma inv_comment (s : Test) (d : String) (h : Inv s) : Inv (s.comment d) := by
  obtain ⟨h1, h2, h3, h4⟩ := h
  refine ⟨by simpa using h1, ?_, ?_, ?_⟩
  · intro hne
    simp only [comment_notified] at hne
    obtain ⟨ha, hb⟩ := h2 hne
    exact ⟨by simp [ha], by simp [hb]⟩
  · intro hfin
    simp only [comment_finished] at hfin
    simp [hfin]
  · intro hto
    simp only [comment_timeout] at hto
    have : ¬ (0 < s.timeout) := by omega
    simp [this]

lemma inv_ping (s : Test) (h : Inv s) : Inv s.ping := by
  obtain ⟨h1, h2, h3, h4⟩ := h
  refine ⟨by simpa using h1, ?_, ?_, ?_⟩
  · intro hne
    simp only [ping_notified] at hne
    obtain ⟨ha, hb⟩ := h2 hne
    exact ⟨by simp [ha], by simp [hb]⟩
  · intro hfin
    simp only [ping_finished] at hfin
    simp [hfin]
  · intro hto
    simp only [ping_timeout] at hto
    have : ¬ (0 < s.timeout) := by omega
    simp [this]

lemma inv_finish (s : Test) (r : Option String) (h : Inv s) : Inv (s.finish r) := by
  obtain ⟨h1, h2, h3, h4⟩ := h
  rcases finish_notified_cases s r with hn | ⟨hf0, hp0, hc0, hl⟩
  · refine ⟨by rw [hn]; exact h1, ?_, by simp, by simp⟩
    intro hne
    rw [hn] at hne
    refine ⟨finish_finished s r, ?_⟩
    rw [finish_pending]
    exact (h2 hne).2
  · refine ⟨?_, ?_, by simp, by simp⟩
    · rw [hl]
      have hz : s.notified = [] := by
        by_contra hne
        exact absurd (h2 hne).1 (by simp [hf0])
      simp [hz]
    · intro _
      refine ⟨finish_finished s r, ?_⟩
      rw [finish_pending, hp0]

lemma inv_checkExpected (s : Test) (h : Inv s) : Inv s.checkExpected := by
  unfold Test.checkExpected
  split
  · exact inv_finish s none h
  · exact h

/-- Any state that agrees with an invariant-satisfying unfinished state on
the notification trace, is itself unfinished, and keeps the timer clear
for non-positive timeouts, satisfies the invariant. -/
lemma inv_mk (X s : Test) (h : Inv s) (hs : s.finished = false)
    (hfin : X.finished = false) (hnot : X.notified = s.notified)
    (h4 : X.timeout ≤ 0 → X.timer = false) : Inv X := by
  obtain ⟨h1, h2, h3, h4'⟩ := h
  refine ⟨by rw [hnot]; exact h1, ?_, ?_, h4⟩
  · intro hne
    rw [hnot] at hne
    exact absurd (h2 hne).1 (by simp [hs])
  · intro hfin'
    rw [hfin] at hfin'
    cases hfin'

lemma inv_subtestFinished (s : Test) (r : Option String) (p : Bool)
    (h : Inv s) : Inv (s.subtestFinished r p) := by
  obtain ⟨h1, h2, h3, h4⟩ := h
  rcases subtestFinished_notified_cases s r p with hn | ⟨hf0, hp0, hc0, hl⟩
  · refine ⟨by rw [hn]; exact h1, ?_, ?_, ?_⟩
    · intro hne
      rw [hn] at hne
      obtain ⟨ha, hb⟩ := h2 hne
      refine ⟨by simp [ha], ?_⟩
      rw [subtestFinished_pending]
      omega
    · intro hfin
      rw [subtestFinished_finished] at hfin
      rw [subtestFinished_timer]
      exact h3 hfin
    · intro hto
      rw [subtestFinished_timeout] at hto
      rw [subtestFinished_timer]
      exact h4 hto
  · refine ⟨?_, ?_, ?_, ?_⟩
    · rw [hl]
      have hz : s.notified = [] := by
        by_contra hne
        have := (h2 hne).2
        omega
      simp [hz]
    · intro _
      refine ⟨by simp [hf0], ?_⟩
      rw [subtestFinished_pending]
      omega
    · intro _
      rw [subtestFinished_timer]
      exact h3 hf0
    · intro hto
      rw [subtestFinished_timeout] at hto
      rw [subtestFinished_timer]
      exact h4 hto

lemma inv_timerFire (s : Test) (h : Inv s) : Inv s.timerFire := by
  unfold Test.timerFire
  split
  · exact inv_finish s (some "timeout") h
  · exact h

lemma inv_addExpected (s : Test) (c : Int) (h : Inv s) :
    Inv (s.addExpected c) := by
  by_cases hf : s.finished = true
  · rw [addExpected_of_finished s c hf]
    exact inv_error s _ h
  · have hs : s.finished = false := by simpa using hf
    refine inv_mk _ s h hs (by simp [hs]) (by simp) ?_
    intro hto
    rw [addExpected_timeout] at hto
    rw [addExpected_timer]
    have : ¬ (0 < s.timeout) := by omega
    simp [this]

lemma inv_check (s : Test) (a : CheckArg) (n : String) (h : Inv s) :
    Inv ((s.check a n).1) := by
  by_cases hf : s.finished = true
  · rw [check_of_finished s a n hf]
    exact inv_error s _ h
  · have hs : s.finished = false := by simpa using hf
    rcases a with b | o
    · cases b <;>
      · simp only [Test.check, hs, Bool.not_false, if_true]
        refine inv_checkExpected _ (inv_mk _ s h hs (by simp [hs]) (by simp) ?_)
        intro hto
        simp at hto
        have : ¬ (0 < s.timeout) := by omega
        simp [hs, this]
    · rcases o with - | e
      · simp only [Test.check, hs, Bool.not_false, if_true]
        refine inv_checkExpected _ (inv_mk _ s h hs (by simp [hs]) (by simp) ?_)
        intro hto
        simp at hto
        have : ¬ (0 < s.timeout) := by omega
        simp [hs, this]
      · by_cases he : truthy (some e) = true <;>
        · simp only [Test.check, hs, Bool.not_false, if_true, he]
          refine inv_checkExpected _ (inv_mk _ s h hs (by simp [hs]) (by simp) ?_)
          intro hto
          simp at hto
          have : ¬ (0 < s.timeout) := by omega
          simp [hs, this]

lemma inv_test (s : Test) (nm : String) (ta ba : JSArg) (h : Inv s) :
    Inv ((s.test nm ta ba).1) := by
  by_cases hf : s.finished = true
  · rw [test_of_finished s nm ta ba hf]
    exact inv_error s _ h
  · have hs : s.finished = false := by simpa using hf
    by_cases hb : (if ta.isFunc then JSArg.func else ba).isFunc = true <;>
    · simp only [Test.test, hs, Bool.not_false, if_true, hb]
      refine inv_checkExpected _ (inv_mk _ s h hs (by simp [hs]) (by simp) ?_)
      intro hto
      simp only [ping_timeout] at hto
      have : ¬ (0 < s.timeout) := by omega
      simp [hs, this]

lemma inv_step (s : Test) (op : Op) (h : Inv s) : Inv (step s op) := by
  cases op with
  | check a n => exact inv_check s a n h
  | test nm ta ba => exact inv_test s nm ta ba h
  | addExpected c => exact inv_addExpected s c h
  | comment d => exact inv_comment s d h
  | error d => exact inv_error s d h
  | ping => exact inv_ping s h
  | finish r => exact inv_finish s r h
  | timerFire => exact inv_timerFire s h
  | subtestResolve r p => exact inv_subtestFinished s r p h

lemma inv_run (s : Test) (ops : List Op) (h : Inv s) : Inv (run s ops) := by
  induction ops generalizing s with
  | nil => exact h
  | cons op ops ih => exact ih _ (inv_step s op h)

/-- Whenever one event makes the completion callback fire, the state at
the end of that event is finished with no pending subtests (within every
operation no field changes after the internal notify call). -/
lemma step_notified_grow (s : Test) (op : Op)
    (hg : s.notified.length < (step s op).notified.length) :
    (step s op).finished = true ∧ (step s op).pending = 0 := by
  cases op with
  | ping => simp [step] at hg
  | comment d => simp [step] at hg
  | error d => simp [step] at hg
  | addExpected c => simp [step] at hg
  | finish r =>
      rcases finish_notified_cases s r with hn | ⟨-, hp0, -, -⟩
      · rw [step, hn] at hg; omega
      · exact ⟨finish_finished s r, by rw [step, finish_pending]; exact hp0⟩
  | timerFire =>
      rw [step] at hg ⊢
      unfold Test.timerFire at hg ⊢
      split at hg
      · rw [if_pos (by assumption)]
        rcases finish_notified_cases s (some "timeout") with hn | ⟨-, hp0, -, -⟩
        · rw [hn] at hg; omega
        · exact ⟨finish_finished s _, by rw [finish_pending]; exact hp0⟩
      · omega
  | subtestResolve r p =>
      rcases subtestFinished_notified_cases s r p with hn | ⟨hf0, hp0, -, -⟩
      · rw [step, hn] at hg; omega
      · exact ⟨by rw [step, subtestFinished_finished]; exact hf0,
          by rw [step, subtestFinished_pending]; exact hp0⟩
  | check a n =>
      by_cases hf : s.finished = true
      · rw [step, check_of_finished s a n hf] at hg
        simp at hg
      · have hs : s.finished = false := by simpa using hf
        rw [step] at hg ⊢
        rcases a with b | o
        · cases b <;>
          · simp only [Test.check, hs, Bool.not_false, if_true] at hg ⊢
            exact checkExpected_grow _ hg
        · rcases o with - | e
          · simp only [Test.check, hs, Bool.not_false, if_true] at hg ⊢
            exact checkExpected_grow _ hg
          · by_cases he : truthy (some e) = true <;>
            · simp only [Test.check, hs, Bool.not_false, if_true, he] at hg ⊢
              exact checkExpected_grow _ hg
  | test nm ta ba =>
      by_cases hf : s.finished = true
      · rw [step, test_of_finished s nm ta ba hf] at hg
        simp at hg
      · have hs : s.finished = false := by simpa using hf
        rw [step] at hg ⊢
        by_cases hb : (if ta.isFunc then JSArg.func else ba).isFunc = true <;>
        · simp only [Test.test, hs, Bool.not_false, if_true, hb] at hg ⊢
          exact checkExpected_grow _ hg

/-! Constructor projections and the created child of Test.prototype.test. -/

@[simp] lemma new_finished (n : String) (ta ca : JSArg) :
    (Test.new n ta ca).finished = false := rfl

@[simp] lemma new_notified (n : String) (ta ca : JSArg) :
    (Test.new n ta ca).notified = [] := rfl

@[simp] lemma new_pending (n : String) (ta ca : JSArg) :
    (Test.new n ta ca).pending = 0 := rfl

@[simp] lemma new_total (n : String) (ta ca : JSArg) :
    (Test.new n ta ca).total = 0 := rfl

@[simp] lemma new_expected (n : String) (ta ca : JSArg) :
    (Test.new n ta ca).expected = none := rfl

/-- An omitted (undefined) timeout argument falls back to the module
default of 5000 milliseconds. -/
lemma new_timeout_undef (n : String) (ca : JSArg) :
    (Test.new n .undef ca).timeout = DEFAULT_TIMEOUT := rfl

/-- A numeric timeout argument is stored verbatim. -/
lemma new_timeout_num (n : String) (t : Int) (ca : JSArg) :
    (Test.new n (.num t) ca).timeout = t := rfl

/-- A function in the timeout position leaves the timeout undefined, so
the default applies. -/
lemma new_timeout_func (n : String) (ca : JSArg) :
    (Test.new n .func ca).timeout = DEFAULT_TIMEOUT := rfl

/-- A function in the timeout position becomes the bound callback. -/
lemma new_hasCb_func (n : String) (ca : JSArg) :
    (Test.new n .func ca).hasCb = true := rfl

/-- The child created by test on an unfinished parent: its callback slot
receives the parent bound handler (a function), and its timeout argument
is the (possibly swapped-away) timeout argument of the call. -/
lemma test_child (s : Test) (nm : String) (ta ba : JSArg)
    (hs : s.finished = false) :
    (s.test nm ta ba).2.child =
      some (Test.new nm (if ta.isFunc then JSArg.undef else ta) JSArg.func) := by
  by_cases hb : (if ta.isFunc then JSArg.func else ba).isFunc = true <;>
    simp [Test.test, hs, hb, TestResult.child]

/-! Claim theorems. -/

/-- C1: for every node, the completion callback bound at construction is
invoked at most once per execution, and only at a point where
finished is true and pending is zero; a node that finishes while pending
is positive defers the invocation until the last pending subtest
resolves, at which point the callback fires exactly once. -/
theorem completion_callback_at_most_once :
    (∀ (n : String) (ta ca : JSArg) (ops : List Op),
        (run (Test.new n ta ca) ops).notified.length ≤ 1)
  ∧ (∀ (s : Test) (op : Op),
        s.notified.length < (step s op).notified.length →
        (step s op).finished = true ∧ (step s op).pending = 0)
  ∧ (∀ (s : Test) (r : Option String),
        s.finished = false → 0 < s.pending →
        (s.finish r).notified = s.notified)
  ∧ (∀ (s : Test) (r : Option String) (p : Bool),
        s.finished = true → s.pending = 1 → s.hasCb = true → s.notified = [] →
        (s.subtestFinished r p).notified.length = 1) := by
  refine ⟨?_, step_notified_grow, ?_, ?_⟩
  · intro n ta ca ops
    exact (inv_run _ ops (inv_new n ta ca)).1
  · intro s r hs hp
    exact finish_notified_of_pending s r (by omega)
  · intro s r p hf hp hc hn
    have h2 : s.pending - 1 = 0 ∧ s.finished = true := ⟨by omega, hf⟩
    by_cases h1 : truthy r = false ∧ p = true <;>
      simp [Test.subtestFinished, h1, h2, notifyFinish_notified, hc, hn]

/-- C1 witness: a parent with one pending subtest that has finished does
not notify on finish; the resolution of that subtest then produces
exactly one notification. -/
theorem completion_callback_at_most_once_witness :
    ((run (Test.new "p" JSArg.undef JSArg.func)
        [Op.test "c" JSArg.undef JSArg.undef, Op.finish none]).subtestFinished
          none true).notified.length = 1
  ∧ ((run (Test.new "p" JSArg.undef JSArg.func)
        [Op.test "c" JSArg.undef JSArg.undef]).finish none).notified
      = (run (Test.new "p" JSArg.undef JSArg.func)
          [Op.test "c" JSArg.undef JSArg.undef]).notified := by
  constructor
  · exact completion_callback_at_most_once.2.2.2 _ none true
      (by decide) (by decide) (by decide) (by decide)
  · exact completion_callback_at_most_once.2.2.1 _ none (by decide) (by decide)

/-- C5: a second finish call on an already finished node leaves finished,
finishReason and the notification trace unchanged, does not touch any
counter, and only appends one error annotation describing the duplicate
attempt (mentioning the attempted reason), incrementing errors by one. -/
theorem duplicate_finish_noop (s : Test) (r : Option String)
    (hf : s.finished = true) :
    (s.finish r).finished = true
  ∧ (s.finish r).finishReason = s.finishReason
  ∧ (s.finish r).notified = s.notified
  ∧ (s.finish r).contents = s.contents ++ [Entry.note "error"
      ("An extra attempt was made to finish the test, the reason this time was: \x27"
        ++ reasonToStr r ++ "\x27")]
  ∧ (s.finish r).errors = s.errors + 1
  ∧ (s.finish r).passed = s.passed
  ∧ (s.finish r).failed = s.failed
  ∧ (s.finish r).total = s.total
  ∧ (s.finish r).pending = s.pending := by
  rw [finish_of_finished s r hf]
  simp [hf]

/-- C5 witness: finishing twice with explicit reasons keeps the first
reason and increments errors by one on the second call. -/
theorem duplicate_finish_noop_witness :
    (((Test.new "t" JSArg.undef JSArg.undef).finish (some "x")).finish
        (some "y")).finishReason
      = ((Test.new "t" JSArg.undef JSArg.undef).finish (some "x")).finishReason
  ∧ (((Test.new "t" JSArg.undef JSArg.undef).finish (some "x")).finish
        (some "y")).errors
      = ((Test.new "t" JSArg.undef JSArg.undef).finish (some "x")).errors + 1 := by
  have h := duplicate_finish_noop
    ((Test.new "t" JSArg.undef JSArg.undef).finish (some "x")) (some "y") (by decide)
  exact ⟨h.2.1, h.2.2.2.2.1⟩

/-- C8: check, test and addExpected after the node is finished never
mutate the counters or the expected count; their only applied effect is
one diagnostic error annotation, and a post-finish check returns
undefined rather than a boolean. -/
theorem post_finish_operations_noop (s : Test) (hf : s.finished = true) :
    (∀ (a : CheckArg) (n : String),
        (s.check a n).2 = none
      ∧ (s.check a n).1.passed = s.passed
      ∧ (s.check a n).1.failed = s.failed
      ∧ (s.check a n).1.total = s.total
      ∧ (s.check a n).1.pending = s.pending
      ∧ (s.check a n).1.expected = s.expected
      ∧ (s.check a n).1.contents = s.contents ++ [Entry.note "error"
          ("Checkpoint \x27" ++ n ++ "\x27 triggered after test was completed")]
      ∧ (s.check a n).1.errors = s.errors + 1)
  ∧ (∀ (nm : String) (ta ba : JSArg),
        (s.test nm ta ba).2 = .rejected
      ∧ (s.test nm ta ba).1.passed = s.passed
      ∧ (s.test nm ta ba).1.failed = s.failed
      ∧ (s.test nm ta ba).1.total = s.total
      ∧ (s.test nm ta ba).1.pending = s.pending
      ∧ (s.test nm ta ba).1.expected = s.expected
      ∧ (s.test nm ta ba).1.contents = s.contents ++ [Entry.note "error"
          ("Subtest \x27" ++ nm ++ "\x27 triggered after test was completed")]
      ∧ (s.test nm ta ba).1.errors = s.errors + 1)
  ∧ (∀ (c : Int),
        (s.addExpected c).passed = s.passed
      ∧ (s.addExpected c).failed = s.failed
      ∧ (s.addExpected c).total = s.total
      ∧ (s.addExpected c).pending = s.pending
      ∧ (s.addExpected c).expected = s.expected
      ∧ (s.addExpected c).contents = s.contents ++ [Entry.note "error"
          ("Expected test count increased by " ++ toString c ++ " after completion.")]
      ∧ (s.addExpected c).errors = s.errors + 1) := by
  refine ⟨?_, ?_, ?_⟩
  · intro a n
    rw [check_of_finished s a n hf]
    simp
  · intro nm ta ba
    rw [test_of_finished s nm ta ba hf]
    simp
  · intro c
    rw [addExpected_of_finished s c hf]
    simp

/-- C8 witness: on a concrete finished node, a post-finish check returns
undefined and a post-finish addExpected leaves expected unchanged. -/
theorem post_finish_operations_noop_witness :
    (((Test.new "t" JSArg.undef JSArg.undef).finish none).check
        (CheckArg.val true) "a").2 = none
  ∧ (((Test.new "t" JSArg.undef JSArg.undef).finish none).addExpected 3).expected
      = ((Test.new "t" JSArg.undef JSArg.undef).finish none).expected := by
  have h := post_finish_operations_noop
    ((Test.new "t" JSArg.undef JSArg.undef).finish none) (by decide)
  exact ⟨(h.1 (CheckArg.val true) "a").1, (h.2.2 3).2.2.2.2.1⟩

/-- C9: ping always cancels any previously scheduled liveness timer and
schedules a new single-shot timer exactly when the node is unfinished and
the timeout is positive; a scheduled timer firing runs finish with reason
"timeout", which records a descriptive error annotation mentioning the
configured timeout; consequently a finished reachable node never has a
scheduled timer and a reachable node with a non-positive timeout never
has one. -/
theorem liveness_timer_spec :
    (∀ s : Test, (s.ping.timer = true ↔ (s.finished = false ∧ 0 < s.timeout)))
  ∧ (∀ s : Test, s.timer = true → s.timerFire = s.finish (some "timeout"))
  ∧ (∀ s : Test, s.finished = false →
        (s.finish (some "timeout")).finishReason = some "timeout"
      ∧ (s.finish (some "timeout")).contents =
          s.contents ++ [Entry.note "error"
            ("Test timed out due to no activity in "
              ++ toString s.timeout ++ " milliseconds.")]
      ∧ (s.finish (some "timeout")).errors = s.errors + 1)
  ∧ (∀ s : Test, s.timer = false → s.timerFire = s)
  ∧ (∀ (n : String) (ta ca : JSArg) (ops : List Op),
        ((run (Test.new n ta ca) ops).finished = true →
          (run (Test.new n ta ca) ops).timer = false)
      ∧ ((run (Test.new n ta ca) ops).timeout ≤ 0 →
          (run (Test.new n ta ca) ops).timer = false)) := by
  refine ⟨?_, ?_, ?_, ?_, ?_⟩
  · intro s
    rw [ping_timer]
    simp
  · intro s ht
    unfold Test.timerFire
    rw [if_pos ht]
  · intro s hf
    exact ⟨finish_finishReason s _ hf, (finish_timeout_contents s hf).1,
      (finish_timeout_contents s hf).2⟩
  · intro s ht
    unfold Test.timerFire
    rw [if_neg (by simp [ht])]
  · intro n ta ca ops
    have h := inv_run _ ops (inv_new n ta ca)
    exact ⟨h.2.2.1, h.2.2.2⟩

/-- C9 witness: on a node with timeout 50 the scheduled timer fires as a
finish with reason "timeout"; a node built with timeout 0 has no timer. -/
theorem liveness_timer_spec_witness :
    (Test.new "t" (JSArg.num 50) JSArg.undef).timerFire
        = (Test.new "t" (JSArg.num 50) JSArg.undef).finish (some "timeout")
  ∧ ((Test.new "t" (JSArg.num 50) JSArg.undef).finish
        (some "timeout")).finishReason = some "timeout"
  ∧ (run (Test.new "t" (JSArg.num 0) JSArg.undef) []).timer = false := by
  refine ⟨liveness_timer_spec.2.1 _ (by decide),
    (liveness_timer_spec.2.2.1 _ (by decide)).1,
    (liveness_timer_spec.2.2.2.2 "t" (JSArg.num 0) JSArg.undef []).2 (by decide)⟩

/-- C2 counterexample: addExpected performs no expected-vs-total
re-evaluation.  On a fresh node, addExpected 0 makes expected non-null
and equal to total, yet the node does not finish at that moment. -/
theorem addExpected_no_reevaluation_cex :
    ((Test.new "t" JSArg.undef JSArg.undef).addExpected 0).expected
        = some (((Test.new "t" JSArg.undef JSArg.undef).addExpected 0).total)
  ∧ ((Test.new "t" JSArg.undef JSArg.undef).addExpected 0).finished = false := by
  decide

/-- C2 as amended: addExpected(delta) on an unfinished node updates
expected (setting it to delta if currently null, otherwise adding delta)
but runs no expected-vs-total re-evaluation: even when the new expected
equals the current total the node does not finish at that moment, and no
other field of the node changes. -/
theorem addExpected_updates_without_reevaluation (s : Test) (c : Int)
    (hs : s.finished = false) :
    (s.addExpected c).expected =
      (match s.expected with
        | none => some c
        | some e => some (e + c))
  ∧ (s.addExpected c).finished = false
  ∧ (s.addExpected c).total = s.total
  ∧ (s.addExpected c).contents = s.contents
  ∧ (s.addExpected c).errors = s.errors := by
  refine ⟨addExpected_expected s c hs, by simp [hs], by simp, ?_, ?_⟩
  · cases he : s.expected <;> simp [Test.addExpected, hs, he]
  · cases he : s.expected <;> simp [Test.addExpected, hs, he]

/-- C2 witness: addExpected 2 then addExpected 3 accumulates to 5 with the
node still unfinished. -/
theorem addExpected_updates_without_reevaluation_witness :
    (((Test.new "t" JSArg.undef JSArg.undef).addExpected 2).addExpected 3).expected
        = some 5
  ∧ (((Test.new "t" JSArg.undef JSArg.undef).addExpected 2).addExpected 3).finished
        = false := by
  have h := addExpected_updates_without_reevaluation
    ((Test.new "t" JSArg.undef JSArg.undef).addExpected 2) 3 (by decide)
  refine ⟨?_, h.2.1⟩
  rw [h.1]
  decide

/-- C3: on an unfinished node whose expected count will be reached by the
next recorded checkpoint or subtest, any check or test call finishes the
node automatically with a null finish reason. -/
theorem expected_total_autofinish (s : Test) (hs : s.finished = false)
    (hx : s.expected = some (s.total + 1)) :
    (∀ (a : CheckArg) (n : String),
        (s.check a n).1.finished = true ∧ (s.check a n).1.finishReason = none)
  ∧ (∀ (nm : String) (ta ba : JSArg),
        (s.test nm ta ba).1.finished = true ∧
          (s.test nm ta ba).1.finishReason = none) := by
  constructor
  · intro a n
    rcases a with b | o
    · cases b <;>
      · simp only [Test.check, hs, Bool.not_false, if_true]
        exact checkExpected_fires _ (by simp [hx]) (by simp [hs])
    · rcases o with - | e
      · simp only [Test.check, hs, Bool.not_false, if_true]
        exact checkExpected_fires _ (by simp [hx]) (by simp [hs])
      · by_cases he : truthy (some e) = true <;>
        · simp only [Test.check, hs, Bool.not_false, if_true, he]
          exact checkExpected_fires _ (by simp [hx]) (by simp [hs])
  · intro nm ta ba
    by_cases hb : (if ta.isFunc then JSArg.func else ba).isFunc = true <;>
    · simp only [Test.test, hs, Bool.not_false, if_true, hb]
      exact checkExpected_fires _ (by simp [hx]) (by simp [hs])

/-- C3 witness: after addExpected 1 on a fresh node, one passing check
auto-finishes the node with a null reason. -/
theorem expected_total_autofinish_witness :
    ((((Test.new "t" JSArg.undef JSArg.undef).addExpected 1).check
        (CheckArg.val true) "a").1.finished = true)
  ∧ ((((Test.new "t" JSArg.undef JSArg.undef).addExpected 1).check
        (CheckArg.val true) "a").1.finishReason = none) := by
  exact (expected_total_autofinish
    ((Test.new "t" JSArg.undef JSArg.undef).addExpected 1)
    (by decide) (by decide)).1 (CheckArg.val true) "a"

/-- C4: creating a subtest on an unfinished parent appends a subtest entry
to the parent log and increments total and pending at creation time,
leaving passed and failed alone; when the child later resolves with
(reason, passedFlag) the bound handler increments passed exactly when the
reason is falsy and the flag true and failed otherwise, always decrements
pending, and never touches total. -/
theorem subtest_create_and_resolve :
    (∀ (s : Test) (nm : String) (ta ba : JSArg), s.finished = false →
        (s.test nm ta ba).1.contents = s.contents ++ [Entry.subtest nm]
      ∧ (s.test nm ta ba).1.total = s.total + 1
      ∧ (s.test nm ta ba).1.pending = s.pending + 1
      ∧ (s.test nm ta ba).1.passed = s.passed
      ∧ (s.test nm ta ba).1.failed = s.failed)
  ∧ (∀ (s : Test) (r : Option String) (p : Bool),
        ((truthy r = false ∧ p = true) →
            (s.subtestFinished r p).passed = s.passed + 1 ∧
              (s.subtestFinished r p).failed = s.failed)
      ∧ (¬(truthy r = false ∧ p = true) →
            (s.subtestFinished r p).failed = s.failed + 1 ∧
              (s.subtestFinished r p).passed = s.passed)
      ∧ (s.subtestFinished r p).pending = s.pending - 1
      ∧ (s.subtestFinished r p).total = s.total) := by
  constructor
  · intro s nm ta ba hs
    simp only [Test.test, hs, Bool.not_false, if_true, apply_ite Prod.fst,
      ite_self]
    refine ⟨?_, by simp, by simp, by simp, by simp⟩
    rw [(checkExpected_contents _ (by simp [hs])).1]
    simp
  · intro s r p
    exact ⟨subtestFinished_passed_of s r p, subtestFinished_failed_of s r p,
      subtestFinished_pending s r p, subtestFinished_total s r p⟩

/-- C4 witness: a fresh parent creating one subtest has one pending
initiated entry, and a passing resolution then counts one passed. -/
theorem subtest_create_and_resolve_witness :
    ((Test.new "p" JSArg.undef JSArg.undef).test "c" JSArg.undef JSArg.undef).1.pending
        = (Test.new "p" JSArg.undef JSArg.undef).pending + 1
  ∧ (((Test.new "p" JSArg.undef JSArg.undef).test "c" JSArg.undef
        JSArg.undef).1.subtestFinished none true).passed
      = ((Test.new "p" JSArg.undef JSArg.undef).test "c" JSArg.undef
          JSArg.undef).1.passed + 1 := by
  refine ⟨(subtest_create_and_resolve.1 _ "c" JSArg.undef JSArg.undef
    (by decide)).2.2.1, ?_⟩
  exact ((subtest_create_and_resolve.2 _ none true).1 (by decide)).1

/-- C6 counterexample: a parent constructed with timeout 100 creating a
subtest with the timeout argument omitted yields a child whose timeout is
the global default 5000, not the parent value 100. -/
theorem subtest_timeout_inheritance_cex :
    (Test.new "p" (JSArg.num 100) JSArg.undef).timeout = 100
  ∧ (((Test.new "p" (JSArg.num 100) JSArg.undef).test "c" JSArg.undef
        JSArg.undef).2.child.map Test.timeout) = some DEFAULT_TIMEOUT
  ∧ (((Test.new "p" (JSArg.num 100) JSArg.undef).test "c" JSArg.undef
        JSArg.undef).2.child.map Test.timeout)
      ≠ some ((Test.new "p" (JSArg.num 100) JSArg.undef).timeout) := by
  decide

/-- C6 as amended: a subtest created with the timeout argument omitted
receives the module default timeout of 5000 milliseconds, regardless of
the parent timeout value. -/
theorem subtest_default_timeout (s : Test) (nm : String) (ba : JSArg)
    (hs : s.finished = false) :
    ((s.test nm JSArg.undef ba).2.child.map Test.timeout)
      = some DEFAULT_TIMEOUT := by
  rw [test_child s nm JSArg.undef ba hs]
  rfl

/-- C6 witness: the amended statement evaluated on a parent with
timeout 100. -/
theorem subtest_default_timeout_witness :
    (((Test.new "p" (JSArg.num 100) JSArg.undef).test "c" JSArg.undef
        JSArg.undef).2.child.map Test.timeout) = some DEFAULT_TIMEOUT :=
  subtest_default_timeout (Test.new "p" (JSArg.num 100) JSArg.undef)
    "c" JSArg.undef (by decide)

/-- C7 counterexample: the recording of the thrown value is guarded by a
truthiness test on that value (if (error) in the source), so a callable
throwing the falsy empty string produces a failed checkpoint but no error
annotation and no errors increment, refuting the unconditional claim. -/
theorem check_falsy_throw_cex :
    ((Test.new "t" JSArg.undef JSArg.undef).check
        (CheckArg.fn (some "")) "a").2 = some false
  ∧ ((Test.new "t" JSArg.undef JSArg.undef).check
        (CheckArg.fn (some "")) "a").1.failed
      = (Test.new "t" JSArg.undef JSArg.undef).failed + 1
  ∧ ((Test.new "t" JSArg.undef JSArg.undef).check
        (CheckArg.fn (some "")) "a").1.errors
      = (Test.new "t" JSArg.undef JSArg.undef).errors
  ∧ ((Test.new "t" JSArg.undef JSArg.undef).check
        (CheckArg.fn (some "")) "a").1.contents
      = (Test.new "t" JSArg.undef JSArg.undef).contents
          ++ [Entry.checkpoint "a" false] := by
  decide

/-- C7 as amended: a check on an unfinished node whose callable throws
records a failed checkpoint (failed and total each up by one, passed
untouched), returns false without propagating the exception, and counts
the checkpoint before the auto-finish evaluation; the thrown value is
appended as an error annotation directly after the checkpoint entry, with
errors incremented, only when the thrown value is truthy — a falsy thrown
value leaves contents at the checkpoint alone and errors unchanged. -/
theorem check_callable_throws_guarded (s : Test) (e n : String)
    (hs : s.finished = false) :
    (s.check (.fn (some e)) n).2 = some false
  ∧ (s.check (.fn (some e)) n).1.failed = s.failed + 1
  ∧ (s.check (.fn (some e)) n).1.total = s.total + 1
  ∧ (s.check (.fn (some e)) n).1.passed = s.passed
  ∧ (truthy (some e) = true →
        (s.check (.fn (some e)) n).1.errors = s.errors + 1
      ∧ (s.check (.fn (some e)) n).1.contents
          = s.contents ++ [Entry.checkpoint n false, Entry.note "error" e])
  ∧ (truthy (some e) = false →
        (s.check (.fn (some e)) n).1.errors = s.errors
      ∧ (s.check (.fn (some e)) n).1.contents
          = s.contents ++ [Entry.checkpoint n false])
  ∧ ((s.check (.fn (some e)) n).1.finished = true
      ↔ s.expected = some (s.total + 1)) := by
  refine ⟨?_, ?_, ?_, ?_, ?_, ?_, ?_⟩
  · by_cases he : truthy (some e) = true <;> simp [Test.check, hs, he]
  · by_cases he : truthy (some e) = true <;> simp [Test.check, hs, he]
  · by_cases he : truthy (some e) = true <;> simp [Test.check, hs, he]
  · by_cases he : truthy (some e) = true <;> simp [Test.check, hs, he]
  · intro he
    constructor
    · simp only [Test.check, hs, Bool.not_false, if_true, he]
      rw [(checkExpected_contents _ (by simp [hs])).2]
      simp
    · simp only [Test.check, hs, Bool.not_false, if_true, he]
      rw [(checkExpected_contents _ (by simp [hs])).1]
      simp
  · intro he
    constructor
    · simp only [Test.check, hs, Bool.not_false, if_true, he]
      rw [(checkExpected_contents _ (by simp [hs])).2]
      simp
    · simp only [Test.check, hs, Bool.not_false, if_true, he]
      rw [(checkExpected_contents _ (by simp [hs])).1]
      simp
  · by_cases hx : s.expected = some (s.total + 1)
    · constructor
      · intro _; exact hx
      · intro _
        by_cases he : truthy (some e) = true <;>
        · simp only [Test.check, hs, Bool.not_false, if_true, he]
          exact (checkExpected_fires _ (by simp [hx]) (by simp [hs])).1
    · by_cases he : truthy (some e) = true <;>
      · simp only [Test.check, hs, Bool.not_false, if_true, he]
        rw [checkExpected_of_ne _ (by simp [hx])]
        simp [hs, hx]

/-- C7 witness: a callable throwing the truthy value "boom" on a fresh
node yields a failed checkpoint followed by the thrown value as an error
annotation. -/
theorem check_callable_throws_guarded_witness :
    ((Test.new "t" JSArg.undef JSArg.undef).check
        (CheckArg.fn (some "boom")) "a").2 = some false
  ∧ ((Test.new "t" JSArg.undef JSArg.undef).check
        (CheckArg.fn (some "boom")) "a").1.contents
      = (Test.new "t" JSArg.undef JSArg.undef).contents
          ++ [Entry.checkpoint "a" false, Entry.note "error" "boom"] := by
  have h := check_callable_throws_guarded (Test.new "t" JSArg.undef JSArg.undef)
    "boom" "a" (by decide)
  exact ⟨h.1, (h.2.2.2.2.1 (by decide)).2⟩

/-- C10: both the root constructor and the subtest operation accept the
callback or body in the timeout position: a function second argument is
treated as the callback (for the constructor) or the body (for test), the
timeout is treated as omitted, and the 5000 millisecond default
applies. -/
theorem callback_in_timeout_position :
    (∀ (n : String) (ca : JSArg),
        (Test.new n JSArg.func ca).timeout = DEFAULT_TIMEOUT
      ∧ (Test.new n JSArg.func ca).hasCb = true)
  ∧ (∀ (s : Test) (nm : String) (ba : JSArg), s.finished = false →
        (s.test nm JSArg.func ba).2.isRanBody = true
      ∧ ((s.test nm JSArg.func ba).2.child.map Test.timeout)
          = some DEFAULT_TIMEOUT) := by
  refine ⟨fun n ca => ⟨rfl, rfl⟩, ?_⟩
  intro s nm ba hs
  constructor
  · simp [Test.test, hs, JSArg.isFunc, TestResult.isRanBody]
  · rw [test_child s nm JSArg.func ba hs]
    rfl

/-- C10 witness: a function in the timeout position of test on a fresh
parent is treated as the body and the child gets the default timeout. -/
theorem callback_in_timeout_position_witness :
    ((Test.new "p" JSArg.undef JSArg.undef).test "c" JSArg.func
        JSArg.undef).2.isRanBody = true
  ∧ (((Test.new "p" JSArg.undef JSArg.undef).test "c" JSArg.func
        JSArg.undef).2.child.map Test.timeout) = some DEFAULT_TIMEOUT := by
  exact callback_in_timeout_position.2 (Test.new "p" JSArg.undef JSArg.undef)
    "c" JSArg.undef (by decide)

end SimpleTest
